import Mathlib

/-!
Shallow embedding of `src/queues/ordered-queue-with-retry.js` (class
`OrderedQueueWithRetry`). The backend (BullMQ queue/worker/scheduler) is an
external collaborator: its effects are passed in as explicit arguments
(freshly generated job ids, whether an enqueue succeeded, the job lists a
status query returns). Machine integers are `Nat` (the JS numbers involved
are small non-negative counters). Fallible methods return `Except`; a JS
`catch` that only logs is modelled by returning the unchanged state.

JS truthiness that matters: `job.data._maxRetries || this.maxRetries`
falls back to the scheduler's current global `maxRetries` when the envelope
field is `0` (falsy) - this is modelled exactly by `resolvedMaxRetries`.
`job.data._retryCount || 0` and `job.data._order || 0` collapse to the
field itself once the field is a total `Nat`.

`Array.prototype.sort` with comparator `(a, b) => a.order - b.order` is a
stable comparison sort ascending by `order`; it is modelled with
`List.insertionSort`, which is a stable comparison sort.
-/

/-- Payload-level job data as built by `addJob` / `handleJobFailure`:
the user payload (`_originalData`, also spread at the top level, abstracted
here as one opaque field of type `α`) plus the ordering/retry metadata. -/
structure JobData (α : Type) where
  _order : Nat
  _originalData : α
  _retryCount : Nat
  _maxRetries : Nat
  _previousJobId : Option String
  deriving DecidableEq

/-- One backend job (= one delivery attempt): backend-assigned `id`, job
`name`, envelope `data`, and the delivery `delay` option it was enqueued
with (0 when none). -/
structure Job (α : Type) where
  id : String
  name : String
  data : JobData α
  delay : Nat
  deriving DecidableEq

/-- The scheduler's own mutable fields (constructor of the JS class).
`queue`/`worker`/`scheduler` handles are backend resources kept outside the
model; `processingOrder` is the JS `Map` job-id -> order, modelled as an
association list where an insert conses (first match wins on lookup, like
`Map.get`); `processors` is the set of registered handler names. -/
structure OrderedQueueWithRetry where
  queueName : String
  isInitialized : Bool
  processingOrder : List (String × Nat)
  currentOrder : Nat
  maxRetries : Nat
  retryDelay : Nat
  processors : List String
  deriving DecidableEq

/-- The JS constructor: `new OrderedQueueWithRetry(queueName)`. -/
def newOrderedQueueWithRetry (queueName : String) : OrderedQueueWithRetry :=
  { queueName := queueName
    isInitialized := false
    processingOrder := []
    currentOrder := 0
    maxRetries := 3
    retryDelay := 60000
    processors := [] }

/-- The `initialize()` method: creates the backend queue and scheduler
(external) and sets `isInitialized`. -/
def initializeScheduler (st : OrderedQueueWithRetry) : OrderedQueueWithRetry :=
  { st with isInitialized := true }

/-- Errors thrown by the scheduler's public methods. -/
inductive SchedulerError where
  | notInitialized
  | backendError
  deriving DecidableEq

/-- Errors thrown out of the worker callback: no registered processor for
the job's name, or the processor itself failed. -/
inductive WorkerError where
  | noProcessor (jobName : String)
  | handlerError
  deriving DecidableEq

/-- `registerProcessor(jobName, processor)`: `this.processors.set(jobName,
processor)`. There is no initialization check in the source; the method
always succeeds. Only the registered names matter to the model. -/
def registerProcessor (st : OrderedQueueWithRetry) (jobName : String) :
    OrderedQueueWithRetry :=
  { st with processors := jobName :: st.processors }

/-- `setRetryConfig(maxRetries, retryDelay)`: overwrites the two global
config fields. No initialization check in the source. -/
def setRetryConfig (st : OrderedQueueWithRetry) (maxRetries retryDelay : Nat) :
    OrderedQueueWithRetry :=
  { st with maxRetries := maxRetries, retryDelay := retryDelay }

/-- `addJob(jobName, data, options)`. `newJobId` is the id the backend
assigns, `optDelay` the pass-through `options.delay` (0 when absent),
`backendOk` whether `queue.add` succeeds. The source increments
`this.currentOrder` (`const order = this.currentOrder++`) BEFORE awaiting
`queue.add`, so a failed enqueue still consumes an order number; the
`processingOrder` entry is written only after a successful enqueue. -/
def addJob {α : Type} (st : OrderedQueueWithRetry) (jobName : String) (data : α)
    (newJobId : String) (optDelay : Nat) (backendOk : Bool) :
    OrderedQueueWithRetry × Except SchedulerError (Job α) :=
  if !st.isInitialized then (st, Except.error SchedulerError.notInitialized)
  else
    let order := st.currentOrder
    let st1 := { st with currentOrder := st.currentOrder + 1 }
    if backendOk then
      let job : Job α :=
        { id := newJobId
          name := jobName
          data :=
            { _order := order
              _originalData := data
              _retryCount := 0
              _maxRetries := st.maxRetries
              _previousJobId := none }
          delay := optDelay }
      ({ st1 with processingOrder := (newJobId, order) :: st1.processingOrder },
       Except.ok job)
    else (st1, Except.error SchedulerError.backendError)

/-- The retry budget used by `handleJobFailure`:
`job.data._maxRetries || this.maxRetries` - a stored budget of `0` is falsy
in JS and falls back to the scheduler's CURRENT global `maxRetries`. -/
def resolvedMaxRetries (st : OrderedQueueWithRetry) {α : Type} (d : JobData α) : Nat :=
  if d._maxRetries = 0 then st.maxRetries else d._maxRetries

/-- The retry job `handleJobFailure` enqueues: same `_order` and
`_originalData`, `_retryCount + 1`, the resolved budget as `_maxRetries`,
`_previousJobId = job.id`, and delivery delay `this.retryDelay` (the
scheduler's current config, read at failure-handling time). `rid` stands
for the generated id `retry_(job.id)_(Date.now())`. -/
def retryJobOf (st : OrderedQueueWithRetry) {α : Type} (j : Job α) (rid : String) :
    Job α :=
  { id := rid
    name := j.name
    data :=
      { _order := j.data._order
        _originalData := j.data._originalData
        _retryCount := j.data._retryCount + 1
        _maxRetries := resolvedMaxRetries st j.data
        _previousJobId := some j.id }
    delay := st.retryDelay }

/-- `handleJobFailure(job, error)`. Returns the updated scheduler state and
the resubmitted retry job, if any. If `retryCount >= maxRetries` (resolved)
it returns with no resubmission. Otherwise it enqueues the retry job;
`enqueueOk` says whether that `queue.add` succeeds - on failure the JS
`catch` only logs, so the state is returned unchanged and no error escapes
(the function is total: it never throws to its caller). -/
def handleJobFailure (st : OrderedQueueWithRetry) {α : Type} (j : Job α)
    (rid : String) (enqueueOk : Bool) :
    OrderedQueueWithRetry × Option (Job α) :=
  if j.data._retryCount ≥ resolvedMaxRetries st j.data then (st, none)
  else if enqueueOk then
    ({ st with processingOrder := (rid, j.data._order) :: st.processingOrder },
     some (retryJobOf st j rid))
  else (st, none)

/-- The worker callback installed by `start()` for one delivered job.
`handlerOk` is the registered processor's outcome (the model only needs
success vs failure). Returns the state, the retry job resubmitted by
`handleJobFailure` (if any), and the result the callback returns/throws to
the backend: when no processor is registered for `job.name` the callback
throws `No processor registered...`, which the surrounding `catch` routes
through `handleJobFailure` exactly like a processor failure before
rethrowing. -/
def processJob {α : Type} (st : OrderedQueueWithRetry) (j : Job α)
    (handlerOk : Bool) (rid : String) (enqueueOk : Bool) :
    OrderedQueueWithRetry × Option (Job α) × Except WorkerError Unit :=
  if st.processors.contains j.name then
    if handlerOk then (st, none, Except.ok ())
    else
      ((handleJobFailure st j rid enqueueOk).1,
       (handleJobFailure st j rid enqueueOk).2,
       Except.error WorkerError.handlerError)
  else
    ((handleJobFailure st j rid enqueueOk).1,
     (handleJobFailure st j rid enqueueOk).2,
     Except.error (WorkerError.noProcessor j.name))

/-- `start()`: checks initialization, then creates the backend worker
(external resource, not part of the state model). -/
def start (st : OrderedQueueWithRetry) :
    OrderedQueueWithRetry × Except SchedulerError Unit :=
  if !st.isInitialized then (st, Except.error SchedulerError.notInitialized)
  else (st, Except.ok ())

/-- `pause()`: initialization check, then delegates to the backend. -/
def pause (st : OrderedQueueWithRetry) : Except SchedulerError Unit :=
  if !st.isInitialized then Except.error SchedulerError.notInitialized
  else Except.ok ()

/-- `resume()`: initialization check, then delegates to the backend. -/
def resume (st : OrderedQueueWithRetry) : Except SchedulerError Unit :=
  if !st.isInitialized then Except.error SchedulerError.notInitialized
  else Except.ok ()

/-- The backend's per-status job lists as returned by `queue.getJobs`. -/
structure Backend (α : Type) where
  waiting : List (Job α)
  active : List (Job α)
  delayed : List (Job α)
  completed : List (Job α)
  failed : List (Job α)
  deriving DecidableEq

/-- The `queue.getJobCounts()` record. -/
structure JobCounts where
  waiting : Nat
  active : Nat
  completed : Nat
  failed : Nat
  delayed : Nat
  deriving DecidableEq

/-- One element of `orderedWaiting`. -/
structure OrderedWaitingView where
  id : String
  name : String
  order : Nat
  retryCount : Nat
  deriving DecidableEq

/-- One element of `orderedDelayed` (adds the job's `delay`). -/
structure OrderedDelayedView where
  id : String
  name : String
  order : Nat
  retryCount : Nat
  delay : Nat
  deriving DecidableEq

/-- The record returned by `getOrderedJobCounts()`. -/
structure OrderedJobCountsResult where
  counts : JobCounts
  orderedWaiting : List OrderedWaitingView
  orderedDelayed : List OrderedDelayedView
  totalOrder : Nat
  maxRetries : Nat
  retryDelay : Nat
  deriving DecidableEq

/-- Projection of a waiting job for `orderedWaiting` (`job.data._order || 0`
and `job.data._retryCount || 0` are the fields themselves over `Nat`). -/
def toWaitingView {α : Type} (j : Job α) : OrderedWaitingView :=
  { id := j.id, name := j.name, order := j.data._order,
    retryCount := j.data._retryCount }

/-- Projection of a delayed job for `orderedDelayed`. -/
def toDelayedView {α : Type} (j : Job α) : OrderedDelayedView :=
  { id := j.id, name := j.name, order := j.data._order,
    retryCount := j.data._retryCount, delay := j.delay }

/-- `getOrderedJobCounts()`: initialization check, then builds the sorted
views from the backend's waiting and delayed lists (passed in, in
backend-arrival order) plus the pass-through counts and config fields.
`.sort((a, b) => a.order - b.order)` is modelled by a stable comparison
sort ascending on `order`. -/
def getOrderedJobCounts {α : Type} (st : OrderedQueueWithRetry) (counts : JobCounts)
    (waitingJobs delayedJobs : List (Job α)) :
    Except SchedulerError OrderedJobCountsResult :=
  if !st.isInitialized then Except.error SchedulerError.notInitialized
  else
    Except.ok
      { counts := counts
        orderedWaiting :=
          List.insertionSort (fun a b => a.order ≤ b.order)
            (waitingJobs.map toWaitingView)
        orderedDelayed :=
          List.insertionSort (fun a b => a.order ≤ b.order)
            (delayedJobs.map toDelayedView)
        totalOrder := st.currentOrder
        maxRetries := st.maxRetries
        retryDelay := st.retryDelay }

/-- `cleanupOrderedJobs()`: reads the backend's completed and failed job
lists and deletes their ids from `processingOrder`. The whole body is in a
`try/catch` that only logs, and there is no initialization check: when the
scheduler was never initialized `this.queue` is `null` and the thrown
`TypeError` is swallowed - modelled by the `none` backend case returning
the state unchanged. The backend is only read, never written; it is
returned unchanged to make that explicit. -/
def cleanupOrderedJobs {α : Type} (st : OrderedQueueWithRetry)
    (backend : Option (Backend α)) :
    OrderedQueueWithRetry × Option (Backend α) :=
  match backend with
  | none => (st, none)
  | some b =>
    let terminalIds := (b.completed ++ b.failed).map Job.id
    ({ st with
        processingOrder :=
          st.processingOrder.filter (fun p => !(terminalIds.contains p.1)) },
     some b)

/-- A sequence of `addJob` calls (name, payload, backend-assigned id), all
with `options = {}` and a successful backend; returns the final state and
the list of assigned `_order` values in call order. -/
def addJobs {α : Type} (st : OrderedQueueWithRetry) :
    List (String × α × String) → OrderedQueueWithRetry × List Nat
  | [] => (st, [])
  | c :: rest =>
    let p := addJob st c.1 c.2.1 c.2.2 0 true
    let q := addJobs p.1 rest
    (q.1,
     (match p.2 with
      | Except.ok j => [j.data._order]
      | Except.error _ => []) ++ q.2)

/-- A maximal failure chain: the first attempt `j` fails, and every retry
attempt that `handleJobFailure` resubmits fails in turn (all retry enqueues
succeed), while fresh retry ids are drawn from `rids`. The resulting list
is the sequence of delivery attempts of the lineage. -/
def failureChain (st : OrderedQueueWithRetry) {α : Type} (j : Job α) :
    List String → List (Job α)
  | [] => [j]
  | rid :: rids =>
    match (handleJobFailure st j rid true).2 with
    | none => [j]
    | some j2 => j :: failureChain (handleJobFailure st j rid true).1 j2 rids

/-- The spec's notion, for comparison with the code's behaviour: a lineage
(identified by its order tag) is currently Completed or Failed in the
backend when some attempt of it is listed completed or failed and no
attempt of it is waiting, active or delayed. -/
def specLineageCompletedOrFailed {α : Type} (b : Backend α) (o : Nat) : Bool :=
  ((b.completed ++ b.failed).any (fun j => j.data._order == o)) &&
  !((b.waiting ++ b.active ++ b.delayed).any (fun j => j.data._order == o))

/-- An initialized scheduler with the given retry config, one registered
processor and no jobs yet, for concrete instantiations. -/
def sampleState (mr rd : Nat) : OrderedQueueWithRetry :=
  { queueName := "ordered-queue-with-retry"
    isInitialized := true
    processingOrder := []
    currentOrder := 0
    maxRetries := mr
    retryDelay := rd
    processors := ["email"] }

/-- A concrete first-submission job of lineage 0 with the given retry
metadata, for concrete instantiations. -/
def sampleJob (rc mr : Nat) : Job Nat :=
  { id := "j1"
    name := "email"
    data :=
      { _order := 0
        _originalData := 7
        _retryCount := rc
        _maxRetries := mr
        _previousJobId := none }
    delay := 0 }

/-- A failed first attempt of lineage 0 (as the backend's failed list
reports it after the worker rethrew). -/
def failedAttemptC8 : Job Nat :=
  { id := "f1"
    name := "email"
    data :=
      { _order := 0
        _originalData := 7
        _retryCount := 0
        _maxRetries := 3
        _previousJobId := none }
    delay := 0 }

/-- The delayed retry of that same lineage, now waiting in the backend. -/
def retryAttemptC8 : Job Nat :=
  { id := "r1"
    name := "email"
    data :=
      { _order := 0
        _originalData := 7
        _retryCount := 1
        _maxRetries := 3
        _previousJobId := some "f1" }
    delay := 5000 }

/-- Backend snapshot where lineage 0 has a failed old attempt and a waiting
retry attempt: the lineage is not terminal. -/
def backendC8 : Backend Nat :=
  { waiting := [retryAttemptC8]
    active := []
    delayed := []
    completed := []
    failed := [failedAttemptC8] }

/-- Scheduler state whose Order Index holds both attempts of lineage 0. -/
def stateC8 : OrderedQueueWithRetry :=
  { queueName := "ordered-queue-with-retry"
    isInitialized := true
    processingOrder := [("f1", 0), ("r1", 0)]
    currentOrder := 1
    maxRetries := 3
    retryDelay := 5000
    processors := ["email"] }

/-- Two waiting jobs listed by the backend in arrival order, the higher
lineage order first. -/
def waitingJobsC7 : List (Job Nat) :=
  [{ id := "b"
     name := "email"
     data :=
       { _order := 2
         _originalData := 1
         _retryCount := 0
         _maxRetries := 3
         _previousJobId := none }
     delay := 0 },
   { id := "a"
     name := "email"
     data :=
       { _order := 0
         _originalData := 2
         _retryCount := 0
         _maxRetries := 3
         _previousJobId := none }
     delay := 0 }]

/-- A backend counts record matching `waitingJobsC7`. -/
def countsC7 : JobCounts :=
  { waiting := 2, active := 0, completed := 0, failed := 0, delayed := 0 }

/-- The record `getOrderedJobCounts` returns on `sampleState 3 5000`,
`countsC7`, `waitingJobsC7` and no delayed jobs. -/
def resultC7 : OrderedJobCountsResult :=
  { counts := countsC7
    orderedWaiting :=
      [{ id := "a", name := "email", order := 0, retryCount := 0 },
       { id := "b", name := "email", order := 2, retryCount := 0 }]
    orderedDelayed := []
    totalOrder := 0
    maxRetries := 3
    retryDelay := 5000 }

lemma handleJobFailure_exhausted {α : Type} (st : OrderedQueueWithRetry)
    (j : Job α) (rid : String) (eok : Bool)
    (h : j.data._retryCount ≥ resolvedMaxRetries st j.data) :
    handleJobFailure st j rid eok = (st, none) := by
  simp [handleJobFailure, h]

lemma handleJobFailure_retry {α : Type} (st : OrderedQueueWithRetry)
    (j : Job α) (rid : String)
    (h : j.data._retryCount < resolvedMaxRetries st j.data) :
    handleJobFailure st j rid true =
      ({ st with processingOrder := (rid, j.data._order) :: st.processingOrder },
       some (retryJobOf st j rid)) := by
  have h' : ¬ (j.data._retryCount ≥ resolvedMaxRetries st j.data) := by omega
  simp [handleJobFailure, h']

lemma handleJobFailure_enqueue_failed {α : Type} (st : OrderedQueueWithRetry)
    (j : Job α) (rid : String) :
    handleJobFailure st j rid false = (st, none) := by
  by_cases h : j.data._retryCount ≥ resolvedMaxRetries st j.data <;>
    simp [handleJobFailure, h]

lemma resolvedMaxRetries_of_pos {α : Type} (st : OrderedQueueWithRetry)
    (d : JobData α) (h : d._maxRetries ≠ 0) :
    resolvedMaxRetries st d = d._maxRetries := by
  simp [resolvedMaxRetries, h]

lemma lookup_filter_contains (ids : List String) (jid : String) :
    ∀ l : List (String × Nat),
      List.lookup jid (l.filter (fun p => !(ids.contains p.1)))
        = if ids.contains jid then none else List.lookup jid l
  | [] => by simp
  | (k, v) :: t => by
    rw [List.filter_cons]
    by_cases hk : k ∈ ids
    · have hc : (!(ids.contains (k, v).1)) = false := by simp [hk]
      rw [hc, if_neg (by simp)]
      rw [lookup_filter_contains ids jid t]
      by_cases hj : jid = k
      · subst hj
        simp [hk]
      · have hb : (jid == k) = false := beq_eq_false_iff_ne.mpr hj
        simp [List.lookup_cons, hb]
    · have hc : (!(ids.contains (k, v).1)) = true := by simp [hk]
      rw [hc, if_pos rfl]
      by_cases hj : jid = k
      · subst hj
        simp [List.lookup_cons, hk]
      · have hb : (jid == k) = false := beq_eq_false_iff_ne.mpr hj
        simp only [List.lookup_cons, hb]
        rw [lookup_filter_contains ids jid t]

lemma filter_self_idem {α : Type} (p : α → Bool) (l : List α) :
    (l.filter p).filter p = l.filter p := by
  rw [List.filter_filter]
  simp

lemma failureChain_length_le {α : Type} :
    ∀ (rids : List String) (st : OrderedQueueWithRetry) (j : Job α),
      j.data._maxRetries ≠ 0 →
      (failureChain st j rids).length ≤
        j.data._maxRetries - j.data._retryCount + 1
  | [], st, j, h => by simp [failureChain]
  | rid :: rids, st, j, h => by
    by_cases hx : j.data._retryCount ≥ resolvedMaxRetries st j.data
    · rw [failureChain, handleJobFailure_exhausted st j rid true hx]
      simp
    · have hlt : j.data._retryCount < resolvedMaxRetries st j.data := by omega
      have hr := handleJobFailure_retry st j rid hlt
      have hm2 : resolvedMaxRetries st j.data = j.data._maxRetries :=
        resolvedMaxRetries_of_pos st j.data h
      rw [failureChain, hr]
      simp only [List.length_cons]
      have hmr : (retryJobOf st j rid).data._maxRetries = j.data._maxRetries := by
        simp [retryJobOf, hm2]
      have hrc : (retryJobOf st j rid).data._retryCount =
          j.data._retryCount + 1 := rfl
      have ih := failureChain_length_le rids
        { st with processingOrder := (rid, j.data._order) :: st.processingOrder }
        (retryJobOf st j rid) (by rw [hmr]; exact h)
      rw [hmr, hrc] at ih
      rw [hm2] at hlt
      omega

lemma addJobs_range' {α : Type} :
    ∀ (calls : List (String × α × String)) (st : OrderedQueueWithRetry),
      st.isInitialized = true →
      (addJobs st calls).2 = List.range' st.currentOrder calls.length
  | [], st, h => by simp [addJobs, List.range']
  | c :: rest, st, h => by
    have ih := addJobs_range' rest
      { st with
          currentOrder := st.currentOrder + 1
          processingOrder := (c.2.2, st.currentOrder) :: st.processingOrder }
      (by simp [h])
    simp only [addJobs, addJob, h, Bool.not_true, Bool.false_eq_true,
      if_false, if_true, List.length_cons, List.range']
    simp only [addJob, h] at ih ⊢
    simp [ih]

lemma sorted_insertionSort_waiting (l : List OrderedWaitingView) :
    List.Sorted (fun a b => a.order ≤ b.order)
      (List.insertionSort (fun a b => a.order ≤ b.order) l) := by
  haveI : IsTotal OrderedWaitingView (fun a b => a.order ≤ b.order) :=
    ⟨fun a b => Nat.le_total a.order b.order⟩
  haveI : IsTrans OrderedWaitingView (fun a b => a.order ≤ b.order) :=
    ⟨fun a b c hab hbc => Nat.le_trans hab hbc⟩
  exact List.sorted_insertionSort _ l

lemma sorted_insertionSort_delayed (l : List OrderedDelayedView) :
    List.Sorted (fun a b => a.order ≤ b.order)
      (List.insertionSort (fun a b => a.order ≤ b.order) l) := by
  haveI : IsTotal OrderedDelayedView (fun a b => a.order ≤ b.order) :=
    ⟨fun a b => Nat.le_total a.order b.order⟩
  haveI : IsTrans OrderedDelayedView (fun a b => a.order ≤ b.order) :=
    ⟨fun a b c hab hbc => Nat.le_trans hab hbc⟩
  exact List.sorted_insertionSort _ l

/-- C1: when a failed envelope's retryCount is strictly below its
maxRetries, `handleJobFailure` resubmits a new envelope of the same lineage
with the same payload, the same lineage order, the same maxRetries,
retryCount incremented by one, and previousAttemptId pointing at the failed
attempt; the new retryCount lies in the interval from 1 to maxRetries. -/
theorem retry_resubmission_preserves_lineage (α : Type)
    (st : OrderedQueueWithRetry) (j : Job α) (rid : String)
    (h : j.data._retryCount < j.data._maxRetries) :
    (handleJobFailure st j rid true).2 = some (retryJobOf st j rid)
    ∧ (retryJobOf st j rid).data._order = j.data._order
    ∧ (retryJobOf st j rid).data._originalData = j.data._originalData
    ∧ (retryJobOf st j rid).data._maxRetries = j.data._maxRetries
    ∧ (retryJobOf st j rid).data._retryCount = j.data._retryCount + 1
    ∧ (retryJobOf st j rid).data._previousJobId = some j.id
    ∧ 1 ≤ (retryJobOf st j rid).data._retryCount
    ∧ (retryJobOf st j rid).data._retryCount ≤ j.data._maxRetries := by
  have hm : j.data._maxRetries ≠ 0 := by omega
  have hres := resolvedMaxRetries_of_pos st j.data hm
  have hlt : j.data._retryCount < resolvedMaxRetries st j.data := by
    rw [hres]; exact h
  refine ⟨?_, rfl, rfl, ?_, rfl, rfl, ?_, ?_⟩
  · rw [handleJobFailure_retry st j rid hlt]
  · simp [retryJobOf, hres]
  · simp [retryJobOf]
  · simp [retryJobOf]
    omega

/-- C1 witness: a concrete second attempt (retryCount 1, maxRetries 3)
below budget is resubmitted. -/
theorem retry_resubmission_preserves_lineage_witness :
    (sampleJob 1 3).data._retryCount < (sampleJob 1 3).data._maxRetries
    ∧ (handleJobFailure (sampleState 3 5000) (sampleJob 1 3) "r1" true).2
        = some (retryJobOf (sampleState 3 5000) (sampleJob 1 3) "r1") :=
  ⟨by decide,
   (retry_resubmission_preserves_lineage Nat (sampleState 3 5000)
     (sampleJob 1 3) "r1" (by decide)).1⟩

/-- C2 (amended): for a lineage whose captured budget is nonzero, a chain
of failures makes at most maxRetries + 1 delivery attempts in total (the
failure chain from the first attempt has at most maxRetries + 1
envelopes), and once a failure arrives with retryCount at or above
maxRetries, `handleJobFailure` returns the state unchanged with no
resubmission - so repeating the call changes nothing (idempotent terminal
state). A lineage captured with budget 0 is exempt: the falsy fallback
`job.data._maxRetries || this.maxRetries` resolves its budget to the
scheduler's current global maxRetries at each failure, so it is
resubmitted after a later `setRetryConfig` increase (see the
counterexample below). -/
theorem retry_budget_bounds_attempts (α : Type) (st : OrderedQueueWithRetry)
    (j : Job α) (rids : List String) (hm : j.data._maxRetries ≠ 0) :
    (j.data._retryCount = 0 →
      (failureChain st j rids).length ≤ j.data._maxRetries + 1)
    ∧ (j.data._retryCount ≥ j.data._maxRetries →
        ∀ (rid : String) (eok : Bool),
          handleJobFailure st j rid eok = (st, none)) := by
  constructor
  · intro h0
    have hb := failureChain_length_le rids st j hm
    rw [h0] at hb
    simpa using hb
  · intro hge rid eok
    apply handleJobFailure_exhausted
    rw [resolvedMaxRetries_of_pos st j.data hm]
    exact hge

/-- C2 witness: a fresh attempt with maxRetries 2 produces a failure chain
of at most 3 attempts even when 3 retry ids are available. -/
theorem retry_budget_bounds_attempts_witness :
    (sampleJob 0 2).data._maxRetries ≠ 0
    ∧ (sampleJob 0 2).data._retryCount = 0
    ∧ (failureChain (sampleState 2 5000) (sampleJob 0 2) ["r1", "r2", "r3"]).length
        ≤ (sampleJob 0 2).data._maxRetries + 1 :=
  ⟨by decide, by decide,
   (retry_budget_bounds_attempts Nat (sampleState 2 5000) (sampleJob 0 2)
     ["r1", "r2", "r3"] (by decide)).1 (by decide)⟩

/-- C2 counterexample: a lineage submitted while the global maxRetries was
0 captures `_maxRetries = 0`, so its very first failure already has
retryCount (0) at its maxRetries (0) and the claim demands that no
resubmission ever occurs for it - yet after `setRetryConfig(3, 5000)` the
falsy fallback resolves the budget to the new global 3 and
`handleJobFailure` resubmits the lineage. -/
theorem zero_budget_resubmitted_cx :
    (sampleJob 0 0).data._retryCount ≥ (sampleJob 0 0).data._maxRetries
    ∧ (handleJobFailure (setRetryConfig (sampleState 0 5000) 3 5000)
        (sampleJob 0 0) "r1" true).2
        = some (retryJobOf (setRetryConfig (sampleState 0 5000) 3 5000)
            (sampleJob 0 0) "r1") :=
  ⟨by decide, rfl⟩

/-- C3: on an initialized scheduler whose order counter is fresh, a
sequence of N successful `addJob` calls is assigned exactly the lineage
orders 0, 1, ..., N-1 in call order. -/
theorem addJob_orders_are_range (α : Type) (st : OrderedQueueWithRetry)
    (calls : List (String × α × String))
    (h1 : st.isInitialized = true) (h2 : st.currentOrder = 0) :
    (addJobs st calls).2 = List.range calls.length := by
  rw [List.range_eq_range', ← h2]
  exact addJobs_range' calls st h1

/-- C3 witness: three concrete submissions receive orders 0, 1, 2. -/
theorem addJob_orders_are_range_witness :
    (sampleState 3 60000).isInitialized = true
    ∧ (sampleState 3 60000).currentOrder = 0
    ∧ (addJobs (sampleState 3 60000)
        [("email", (1 : Nat), "a"), ("email", 2, "b"), ("email", 3, "c")]).2
        = List.range 3 :=
  ⟨rfl, rfl,
   addJob_orders_are_range Nat (sampleState 3 60000)
     [("email", (1 : Nat), "a"), ("email", 2, "b"), ("email", 3, "c")] rfl rfl⟩

/-- C4 (amended): `setRetryConfig` only overwrites the two global config
fields. For a lineage whose captured budget is nonzero, a later config
change alters neither the retry decision nor any field of the resubmitted
envelope; but the delivery delay of a retry is always the `retryDelay`
current when the failure is handled (here `d`), not the one configured at
the lineage's first submission. -/
theorem setRetryConfig_frame (α : Type) (st : OrderedQueueWithRetry)
    (m d : Nat) (j : Job α) (rid : String) (eok : Bool)
    (h : j.data._maxRetries ≠ 0) :
    setRetryConfig st m d = { st with maxRetries := m, retryDelay := d }
    ∧ Option.map Job.data (handleJobFailure (setRetryConfig st m d) j rid eok).2
        = Option.map Job.data (handleJobFailure st j rid eok).2
    ∧ (∀ r : Job α,
        (handleJobFailure (setRetryConfig st m d) j rid eok).2 = some r →
        r.delay = d) := by
  have h1 := resolvedMaxRetries_of_pos (setRetryConfig st m d) j.data h
  have h2 := resolvedMaxRetries_of_pos st j.data h
  refine ⟨rfl, ?_, ?_⟩
  · by_cases hx : j.data._retryCount ≥ j.data._maxRetries
    · rw [handleJobFailure_exhausted (setRetryConfig st m d) j rid eok
          (by rw [h1]; exact hx),
        handleJobFailure_exhausted st j rid eok (by rw [h2]; exact hx)]
    · cases eok with
      | false =>
        rw [handleJobFailure_enqueue_failed, handleJobFailure_enqueue_failed]
      | true =>
        rw [handleJobFailure_retry (setRetryConfig st m d) j rid
            (by rw [h1]; omega),
          handleJobFailure_retry st j rid (by rw [h2]; omega)]
        simp [retryJobOf, h1, h2]
  · intro r hr
    by_cases hx : j.data._retryCount ≥ j.data._maxRetries
    · rw [handleJobFailure_exhausted (setRetryConfig st m d) j rid eok
          (by rw [h1]; exact hx)] at hr
      simp at hr
    · cases eok with
      | false =>
        rw [handleJobFailure_enqueue_failed] at hr
        simp at hr
      | true =>
        rw [handleJobFailure_retry (setRetryConfig st m d) j rid
            (by rw [h1]; omega)] at hr
        simp at hr
        rw [← hr]
        simp [retryJobOf, setRetryConfig]

/-- C4 witness: for a lineage with captured budget 3, changing the config
to maxRetries 2 and retryDelay 100 leaves the resubmitted envelope's data
unchanged and schedules its retry with the new delay 100. -/
theorem setRetryConfig_frame_witness :
    (sampleJob 0 3).data._maxRetries ≠ 0
    ∧ Option.map Job.data
        (handleJobFailure (setRetryConfig (sampleState 3 5000) 2 100)
          (sampleJob 0 3) "r1" true).2
        = Option.map Job.data
            (handleJobFailure (sampleState 3 5000) (sampleJob 0 3) "r1" true).2 :=
  ⟨by decide,
   (setRetryConfig_frame Nat (sampleState 3 5000) 2 100 (sampleJob 0 3) "r1"
     true (by decide)).2.1⟩

/-- C4 counterexample: a lineage first submitted while retryDelay was 5000
has its retry scheduled with delay 100 after `setRetryConfig(3, 100)` - the
claim that every retry uses the delay configured at first submission fails
at this input. -/
theorem setRetryConfig_retro_delay_cx :
    (sampleState 3 5000).retryDelay = 5000
    ∧ Option.map Job.delay
        (handleJobFailure (setRetryConfig (sampleState 3 5000) 3 100)
          (sampleJob 0 3) "r1" true).2
        = some 100 :=
  ⟨rfl, rfl⟩

/-- C5: a delivered job whose name has no registered processor goes through
exactly the same failure handling as a processor failure: the worker
callback forwards it to `handleJobFailure` with unchanged arguments and
rethrows a no-processor error, and whenever the budget is not exhausted a
resubmission with retryCount incremented is scheduled with the configured
retry delay. -/
theorem noProcessor_counts_as_failure (α : Type) (st : OrderedQueueWithRetry)
    (j : Job α) (handlerOk : Bool) (rid : String) (eok : Bool)
    (h : st.processors.contains j.name = false) :
    processJob st j handlerOk rid eok
      = ((handleJobFailure st j rid eok).1,
         (handleJobFailure st j rid eok).2,
         Except.error (WorkerError.noProcessor j.name))
    ∧ (j.data._retryCount < resolvedMaxRetries st j.data →
        (processJob st j handlerOk rid true).2.1 = some (retryJobOf st j rid)
        ∧ (retryJobOf st j rid).data._retryCount = j.data._retryCount + 1
        ∧ (retryJobOf st j rid).delay = st.retryDelay) := by
  have hm : j.name ∉ st.processors := by simpa using h
  constructor
  · simp [processJob, hm]
  · intro hlt
    refine ⟨?_, rfl, rfl⟩
    simp [processJob, hm, handleJobFailure_retry st j rid hlt]

/-- C5 witness: with no processors registered, the delivery of a fresh
envelope is resubmitted with retryCount 1. -/
theorem noProcessor_counts_as_failure_witness :
    ({ sampleState 3 5000 with processors := [] }).processors.contains
        (sampleJob 0 3).name = false
    ∧ (processJob { sampleState 3 5000 with processors := [] } (sampleJob 0 3)
        true "r1" true).2.1
        = some (retryJobOf { sampleState 3 5000 with processors := [] }
            (sampleJob 0 3) "r1") :=
  ⟨by decide,
   ((noProcessor_counts_as_failure Nat { sampleState 3 5000 with processors := [] }
     (sampleJob 0 3) true "r1" true (by decide)).2 (by decide)).1⟩

/-- C6 (amended): before initialization, `addJob`, `start`, `pause`,
`resume` and `getOrderedJobCounts` fail with the not-initialized error and
leave the state unchanged; but `registerProcessor` and `setRetryConfig`
perform their updates with no initialization check and raise no error, and
`cleanupOrderedJobs` swallows the failure of its backend access and returns
normally. -/
theorem ops_before_init (α : Type) (st : OrderedQueueWithRetry)
    (n pn : String) (dta : α) (nid : String) (od : Nat) (bok : Bool)
    (c : JobCounts) (ws ds : List (Job α)) (m r : Nat)
    (h : st.isInitialized = false) :
    addJob st n dta nid od bok = (st, Except.error SchedulerError.notInitialized)
    ∧ start st = (st, Except.error SchedulerError.notInitialized)
    ∧ pause st = Except.error SchedulerError.notInitialized
    ∧ resume st = Except.error SchedulerError.notInitialized
    ∧ getOrderedJobCounts st c ws ds
        = Except.error SchedulerError.notInitialized
    ∧ registerProcessor st pn = { st with processors := pn :: st.processors }
    ∧ setRetryConfig st m r = { st with maxRetries := m, retryDelay := r }
    ∧ cleanupOrderedJobs st (none : Option (Backend α)) = (st, none) := by
  refine ⟨?_, ?_, ?_, ?_, ?_, rfl, rfl, rfl⟩ <;>
    simp [addJob, start, pause, resume, getOrderedJobCounts, h]

/-- C6 witness: every conjunct at a concrete uninitialized scheduler. -/
theorem ops_before_init_witness :
    (newOrderedQueueWithRetry "q").isInitialized = false
    ∧ addJob (newOrderedQueueWithRetry "q") "email" (7 : Nat) "a" 0 true
        = (newOrderedQueueWithRetry "q",
           Except.error SchedulerError.notInitialized) :=
  ⟨rfl,
   (ops_before_init Nat (newOrderedQueueWithRetry "q") "email" "email" 7 "a" 0
     true countsC7 [] [] 3 5000 rfl).1⟩

/-- C6 counterexample: on a freshly constructed, uninitialized scheduler,
`registerProcessor` and `setRetryConfig` succeed and perform their updates
instead of failing with a not-initialized error. -/
theorem registerProcessor_before_init_cx :
    (newOrderedQueueWithRetry "ordered-queue-with-retry").isInitialized = false
    ∧ registerProcessor (newOrderedQueueWithRetry "ordered-queue-with-retry")
        "email"
        = { newOrderedQueueWithRetry "ordered-queue-with-retry" with
            processors := ["email"] }
    ∧ setRetryConfig (newOrderedQueueWithRetry "ordered-queue-with-retry") 5 1000
        = { newOrderedQueueWithRetry "ordered-queue-with-retry" with
            maxRetries := 5, retryDelay := 1000 } :=
  ⟨rfl, rfl, rfl⟩

/-- C7: in every successful result of `getOrderedJobCounts`, the
orderedWaiting and orderedDelayed lists are sorted ascending by the order
field, whatever the backend-arrival order of the underlying waiting and
delayed job lists. -/
theorem orderedCounts_sorted (α : Type) (st : OrderedQueueWithRetry)
    (c : JobCounts) (ws ds : List (Job α)) (res : OrderedJobCountsResult)
    (h : getOrderedJobCounts st c ws ds = Except.ok res) :
    List.Sorted (fun a b => a.order ≤ b.order) res.orderedWaiting
    ∧ List.Sorted (fun a b => a.order ≤ b.order) res.orderedDelayed := by
  cases hb : st.isInitialized with
  | false => simp [getOrderedJobCounts, hb] at h
  | true =>
    simp only [getOrderedJobCounts, hb, Bool.not_true, Bool.false_eq_true,
      if_false, Except.ok.injEq] at h
    rw [← h]
    exact ⟨sorted_insertionSort_waiting _, sorted_insertionSort_delayed _⟩

/-- C7 witness: two waiting jobs arriving in order 2, 0 are reported in
order 0, 2. -/
theorem orderedCounts_sorted_witness :
    getOrderedJobCounts (sampleState 3 5000) countsC7 waitingJobsC7
        ([] : List (Job Nat)) = Except.ok resultC7
    ∧ List.Sorted (fun a b => a.order ≤ b.order) resultC7.orderedWaiting :=
  ⟨rfl,
   (orderedCounts_sorted Nat (sampleState 3 5000) countsC7 waitingJobsC7 []
     resultC7 rfl).1⟩

/-- C8 (amended): `cleanupOrderedJobs` removes from the Order Index exactly
the entries whose attempt id appears in the backend's completed or failed
job lists - a per-attempt criterion, not a per-lineage one - leaving every
other entry's lookup unchanged; it is idempotent and returns the backend
unchanged. -/
theorem cleanup_removes_exactly_terminal_attempts (α : Type)
    (st : OrderedQueueWithRetry) (b : Backend α) (jid : String) :
    List.lookup jid (cleanupOrderedJobs st (some b)).1.processingOrder
      = (if ((b.completed ++ b.failed).map Job.id).contains jid then none
         else List.lookup jid st.processingOrder)
    ∧ cleanupOrderedJobs (cleanupOrderedJobs st (some b)).1 (some b)
        = cleanupOrderedJobs st (some b)
    ∧ (cleanupOrderedJobs st (some b)).2 = some b := by
  refine ⟨?_, ?_, rfl⟩
  · simpa [cleanupOrderedJobs] using
      lookup_filter_contains ((b.completed ++ b.failed).map Job.id) jid
        st.processingOrder
  · simp [cleanupOrderedJobs, filter_self_idem]

/-- C8 counterexample: lineage 0 has a failed old attempt f1 and a waiting
retry r1, so it is not currently Completed or Failed, yet cleanup removes
f1's Order Index entry - the per-lineage reading of the claim fails here. -/
theorem cleanup_nonterminal_lineage_cx :
    specLineageCompletedOrFailed backendC8 0 = false
    ∧ List.lookup "f1" stateC8.processingOrder = some 0
    ∧ List.lookup "f1"
        (cleanupOrderedJobs stateC8 (some backendC8)).1.processingOrder = none :=
  ⟨rfl, rfl, rfl⟩

/-- C9: on an initialized scheduler, `addJob` increments the order counter
before the backend enqueue, so a rejected submission consumes a sequence
number: the failed call leaves the counter incremented and the Order Index
untouched while the error propagates, and the next successful call is
assigned an order one higher than the failed call would otherwise have
left it. -/
theorem addJob_failed_enqueue_consumes_order (α : Type)
    (st : OrderedQueueWithRetry) (n1 n2 : String) (d1 d2 : α)
    (id1 id2 : String) (h : st.isInitialized = true) :
    (addJob st n1 d1 id1 0 false).1.currentOrder = st.currentOrder + 1
    ∧ (addJob st n1 d1 id1 0 false).2
        = Except.error SchedulerError.backendError
    ∧ (addJob st n1 d1 id1 0 false).1.processingOrder = st.processingOrder
    ∧ Except.map (fun j => j.data._order)
        (addJob (addJob st n1 d1 id1 0 false).1 n2 d2 id2 0 true).2
        = Except.ok (st.currentOrder + 1)
    ∧ Except.map (fun j => j.data._order) (addJob st n2 d2 id2 0 true).2
        = Except.ok st.currentOrder := by
  simp [addJob, h, Except.map]

/-- C9 witness: a failed submission on a fresh scheduler consumes order 0
and the next successful submission receives order 1. -/
theorem addJob_failed_enqueue_consumes_order_witness :
    (sampleState 3 5000).isInitialized = true
    ∧ Except.map (fun j => j.data._order)
        (addJob (addJob (sampleState 3 5000) "email" (7 : Nat) "a" 0 false).1
          "email" 8 "b" 0 true).2
        = Except.ok ((sampleState 3 5000).currentOrder + 1) :=
  ⟨rfl,
   (addJob_failed_enqueue_consumes_order Nat (sampleState 3 5000) "email"
     "email" 7 8 "a" "b" rfl).2.2.2.1⟩

/-- C10: when the backend enqueue of the retry attempt fails,
`handleJobFailure` catches the error and returns normally with the state
unchanged and no resubmission - even though the lineage's budget was not
exhausted - and the worker callback still rethrows the original handler
error so the backend records the failed attempt. -/
theorem handleJobFailure_swallows_enqueue_error (α : Type)
    (st : OrderedQueueWithRetry) (j : Job α) (rid : String)
    (hb : j.data._retryCount < resolvedMaxRetries st j.data)
    (hp : st.processors.contains j.name = true) :
    handleJobFailure st j rid false = (st, none)
    ∧ processJob st j false rid false
        = (st, none, Except.error WorkerError.handlerError) := by
  have hm : j.name ∈ st.processors := by simpa using hp
  constructor
  · exact handleJobFailure_enqueue_failed st j rid
  · simp [processJob, hm, handleJobFailure_enqueue_failed]

/-- C10 witness: concrete failing retry enqueue on a fresh attempt. -/
theorem handleJobFailure_swallows_enqueue_error_witness :
    (sampleJob 0 3).data._retryCount
        < resolvedMaxRetries (sampleState 3 5000) (sampleJob 0 3).data
    ∧ (sampleState 3 5000).processors.contains (sampleJob 0 3).name = true
    ∧ processJob (sampleState 3 5000) (sampleJob 0 3) false "r1" false
        = (sampleState 3 5000, none, Except.error WorkerError.handlerError) :=
  ⟨by decide, by decide,
   (handleJobFailure_swallows_enqueue_error Nat (sampleState 3 5000)
     (sampleJob 0 3) "r1" (by decide) (by decide)).2⟩
